import Mathlib

/-!
Verification of the bridge core of `matrix-bridge-wechat` against its
natural-language specification.  The Rust sources are shallowly embedded:
pure control flow becomes Lean functions, the database becomes an explicit
list of rows, and every external I/O call (WebSocket send, Matrix HTTP call,
WeChat agent RPC) is represented by an oracle parameter carrying the call's
outcome, while the calls the code issues are returned explicitly so theorems
can talk about them.
-/

namespace Bridge

/- ---------------------------------------------------------------------- -/
/- Retry backoff (src/util/retry/backoff.rs)                               -/
/- ---------------------------------------------------------------------- -/

/-- Mirrors `BackoffConfig`.  `Duration` values are modelled as rational
numbers of seconds (the source converts through `as_secs_f64`). -/
structure BackoffConfig where
  initial_delay : ℚ
  max_delay : ℚ
  multiplier : ℚ
  max_retries : ℕ
  jitter : Bool
  deriving DecidableEq

/-- Mirrors `ExponentialBackoff`: config plus mutable state. -/
structure ExponentialBackoff where
  config : BackoffConfig
  current_delay : ℚ
  retry_count : ℕ
  deriving DecidableEq

/-- `ExponentialBackoff::new`. -/
def ExponentialBackoff.new (config : BackoffConfig) : ExponentialBackoff :=
  { config := config, current_delay := config.initial_delay, retry_count := 0 }

/-- `ExponentialBackoff::add_jitter`; `rand_factor()` (a value in `[0,1)`
derived from the system clock) is passed in as the oracle `r`. -/
def ExponentialBackoff.add_jitter (b : ExponentialBackoff) (delay r : ℚ) : ℚ :=
  max (delay + delay * (1/10) * (r * 2 - 1)) 0

/-- `ExponentialBackoff::next_delay`; returns the yielded delay and the
updated state.  `r` is the jitter oracle for this call. -/
def ExponentialBackoff.next_delay (b : ExponentialBackoff) (r : ℚ) :
    Option ℚ × ExponentialBackoff :=
  if b.config.max_retries ≤ b.retry_count then (none, b)
  else
    let delay := b.current_delay
    let next0 := min (b.current_delay * b.config.multiplier) b.config.max_delay
    let next := if b.config.jitter then b.add_jitter next0 r else next0
    (some delay, { b with current_delay := next, retry_count := b.retry_count + 1 })

/-- `ExponentialBackoff::reset`. -/
def ExponentialBackoff.reset (b : ExponentialBackoff) : ExponentialBackoff :=
  { b with current_delay := b.config.initial_delay, retry_count := 0 }

/-- `ExponentialBackoff::is_exhausted`. -/
def ExponentialBackoff.is_exhausted (b : ExponentialBackoff) : Bool :=
  b.config.max_retries ≤ b.retry_count

/-- Mirrors `LinearBackoff`. -/
structure LinearBackoff where
  config : BackoffConfig
  current_delay : ℚ
  retry_count : ℕ
  deriving DecidableEq

/-- `LinearBackoff::new`. -/
def LinearBackoff.new (config : BackoffConfig) : LinearBackoff :=
  { config := config, current_delay := config.initial_delay, retry_count := 0 }

/-- `LinearBackoff::next_delay` (no jitter in the source). -/
def LinearBackoff.next_delay (b : LinearBackoff) : Option ℚ × LinearBackoff :=
  if b.config.max_retries ≤ b.retry_count then (none, b)
  else
    let delay := b.current_delay
    let next := min (b.current_delay + b.config.initial_delay) b.config.max_delay
    (some delay, { b with current_delay := next, retry_count := b.retry_count + 1 })

/-- `LinearBackoff::reset`. -/
def LinearBackoff.reset (b : LinearBackoff) : LinearBackoff :=
  { b with current_delay := b.config.initial_delay, retry_count := 0 }

/-- `LinearBackoff::is_exhausted`. -/
def LinearBackoff.is_exhausted (b : LinearBackoff) : Bool :=
  b.config.max_retries ≤ b.retry_count

/-- Mirrors `FixedBackoff` (no `current_delay` field in the source). -/
structure FixedBackoff where
  config : BackoffConfig
  retry_count : ℕ
  deriving DecidableEq

/-- `FixedBackoff::new`. -/
def FixedBackoff.new (config : BackoffConfig) : FixedBackoff :=
  { config := config, retry_count := 0 }

/-- `FixedBackoff::next_delay`. -/
def FixedBackoff.next_delay (b : FixedBackoff) : Option ℚ × FixedBackoff :=
  if b.config.max_retries ≤ b.retry_count then (none, b)
  else (some b.config.initial_delay, { b with retry_count := b.retry_count + 1 })

/-- `FixedBackoff::reset`. -/
def FixedBackoff.reset (b : FixedBackoff) : FixedBackoff :=
  { b with retry_count := 0 }

/-- `FixedBackoff::is_exhausted`. -/
def FixedBackoff.is_exhausted (b : FixedBackoff) : Bool :=
  b.config.max_retries ≤ b.retry_count

/-- Mirrors `ImmediateBackoff`. -/
structure ImmediateBackoff where
  config : BackoffConfig
  retry_count : ℕ
  deriving DecidableEq

/-- `ImmediateBackoff::new`. -/
def ImmediateBackoff.new (config : BackoffConfig) : ImmediateBackoff :=
  { config := config, retry_count := 0 }

/-- `ImmediateBackoff::next_delay`: yields `Duration::ZERO`. -/
def ImmediateBackoff.next_delay (b : ImmediateBackoff) : Option ℚ × ImmediateBackoff :=
  if b.config.max_retries ≤ b.retry_count then (none, b)
  else (some 0, { b with retry_count := b.retry_count + 1 })

/-- `ImmediateBackoff::reset`. -/
def ImmediateBackoff.reset (b : ImmediateBackoff) : ImmediateBackoff :=
  { b with retry_count := 0 }

/-- `ImmediateBackoff::is_exhausted`. -/
def ImmediateBackoff.is_exhausted (b : ImmediateBackoff) : Bool :=
  b.config.max_retries ≤ b.retry_count

/-- State after `n` calls of a (possibly call-indexed) `next_delay` step. -/
def stateAfter {σ : Type} (step : ℕ → σ → Option ℚ × σ) (s : σ) : ℕ → σ
  | 0 => s
  | n + 1 => (step n (stateAfter step s n)).2

/-- Result of the `n`-th (0-indexed) `next_delay` call starting from `s`. -/
def nthCall {σ : Type} (step : ℕ → σ → Option ℚ × σ) (s : σ) (n : ℕ) : Option ℚ :=
  (step n (stateAfter step s n)).1

/-- Step family for `ExponentialBackoff` with jitter stream `jit`. -/
def expStep (jit : ℕ → ℚ) : ℕ → ExponentialBackoff → Option ℚ × ExponentialBackoff :=
  fun n b => b.next_delay (jit n)

/-- Step family for `LinearBackoff`. -/
def linStep : ℕ → LinearBackoff → Option ℚ × LinearBackoff :=
  fun _ b => b.next_delay

/-- Step family for `FixedBackoff`. -/
def fixStep : ℕ → FixedBackoff → Option ℚ × FixedBackoff :=
  fun _ b => b.next_delay

/-- Step family for `ImmediateBackoff`. -/
def immStep : ℕ → ImmediateBackoff → Option ℚ × ImmediateBackoff :=
  fun _ b => b.next_delay

/- ---------------------------------------------------------------------- -/
/- Agent transport (src/wechat/service.rs)                                 -/
/- ---------------------------------------------------------------------- -/

/-- One registered agent WebSocket connection (the outbound channel handle
is not modelled; only the registry key matters for the claims). -/
structure Connection where
  addr : String
  deriving DecidableEq

/-- A `Response` frame payload (`WxResponse`): either data or an error. -/
structure WxResponse where
  data : Option String
  error : Option String
  deriving DecidableEq

/-- The shared mutable state of `WechatService`:
`connections: HashMap<String, Connection>` is modelled as an association
list from remote address to connection, `pending_requests` as the list of
correlation ids holding a registered one-shot waiter, and `request_id` as
the atomic counter. -/
structure ServiceState where
  connections : List (String × Connection)
  pending : List Int
  request_id : Int
  deriving DecidableEq

/-- `HashMap::insert`: replaces the entry with the same key, keeps others. -/
def assocInsert (m : List (String × Connection)) (k : String) (v : Connection) :
    List (String × Connection) :=
  (k, v) :: m.filter (fun p => p.1 ≠ k)

/-- `HashMap::remove`. -/
def assocRemove (m : List (String × Connection)) (k : String) :
    List (String × Connection) :=
  m.filter (fun p => p.1 ≠ k)

/-- The connection-registration step at the top of `handle_socket`:
`conns.insert(addr.clone(), conn)`. -/
def handle_socket_connect (st : ServiceState) (addr : String) : ServiceState :=
  { st with connections := assocInsert st.connections addr ⟨addr⟩ }

/-- The tear-down step at the bottom of `handle_socket`:
`conns.remove(&addr)`. -/
def handle_socket_disconnect (st : ServiceState) (addr : String) : ServiceState :=
  { st with connections := assocRemove st.connections addr }

/-- `WechatService::get_connection`: `conns.values().next().cloned()` — an
arbitrary element of the map; the association list's head stands in for
whichever element the `HashMap` iterator yields first. -/
def get_connection (st : ServiceState) : Option Connection :=
  st.connections.head?.map (·.2)

/-- Errors `WechatService::request` can produce (`anyhow!` messages). -/
inductive RequestError where
  | noConnection
  | channelClosed
  | timeout
  deriving DecidableEq

/-- The literal `anyhow!` message of each failure. -/
def RequestError.message : RequestError → String
  | .noConnection => "no agent connection available"
  | .channelClosed => "response channel closed"
  | .timeout => "request timeout"

/-- What the await on the one-shot receiver observes, when execution
reaches `tokio::time::timeout(REQUEST_TIMEOUT, rx)`. -/
inductive AwaitOutcome where
  | responded (resp : WxResponse)
  | channelClosed
  | timedOut
  deriving DecidableEq

/-- Result of one `WechatService::request` call: the returned value, the
service state after the call returns, and whether execution reached the
30-second timeout await at all. -/
structure RequestRun where
  result : Except RequestError WxResponse
  finalState : ServiceState
  reachedTimeoutWait : Bool

/-- Remove a correlation id from the pending-request map. -/
def removePending (l : List Int) (id : Int) : List Int :=
  l.filter (fun x => x ≠ id)

/-- `WechatService::request`.  It allocates `id = request_id + 1`, registers
a waiter under `id`, then checks `get_connection`.  With no connection it
removes its own waiter and fails before ever reaching the timeout await.
Otherwise the frame is queued and the call awaits the outcome; on a
response or a closed channel the waiter was already removed by the frame
handler that resolved (or dropped) it, and on timeout `request` removes the
waiter itself. -/
def request (st : ServiceState) (outcome : AwaitOutcome) : RequestRun :=
  let id := st.request_id + 1
  let st1 : ServiceState := { st with request_id := id, pending := id :: st.pending }
  match get_connection st1 with
  | none =>
      { result := .error .noConnection
        finalState := { st1 with pending := removePending st1.pending id }
        reachedTimeoutWait := false }
  | some _ =>
      match outcome with
      | .responded r =>
          { result := .ok r
            finalState := { st1 with pending := removePending st1.pending id }
            reachedTimeoutWait := true }
      | .channelClosed =>
          { result := .error .channelClosed
            finalState := { st1 with pending := removePending st1.pending id }
            reachedTimeoutWait := true }
      | .timedOut =>
          { result := .error .timeout
            finalState := { st1 with pending := removePending st1.pending id }
            reachedTimeoutWait := true }

/- ---------------------------------------------------------------------- -/
/- Message correlation store (src/database/message.rs, schema.rs)          -/
/- ---------------------------------------------------------------------- -/

/-- A row of the `message` table (struct `Message` in database/message.rs). -/
structure DbMessage where
  chat_uid : String
  chat_receiver : String
  msg_id : String
  mxid : String
  sender : String
  timestamp : Int
  sent : Bool
  error : Option String
  msg_type : String
  deriving DecidableEq

/-- The composite primary key of the `message` table, as declared in
`schema.rs`: `message (chat_uid, chat_receiver, msg_id)`. -/
def DbMessage.key (m : DbMessage) : String × String × String :=
  (m.chat_uid, m.chat_receiver, m.msg_id)

/-- The `message` table, in insertion order. -/
abbrev MessageStore := List DbMessage

namespace MessageQuery

/-- `MessageQuery::get_by_mxid`: `SELECT ... WHERE mxid = ? LIMIT 1`
(no ORDER BY; insertion order stands in for the unspecified row order). -/
def get_by_mxid (db : MessageStore) (mxid : String) : Option DbMessage :=
  db.find? (fun m => m.mxid == mxid)

/-- `MessageQuery::get_by_msg_id`: `SELECT ... WHERE msg_id = ? LIMIT 1`. -/
def get_by_msg_id (db : MessageStore) (msg_id : String) : Option DbMessage :=
  db.find? (fun m => m.msg_id == msg_id)

/-- `MessageQuery::get_by_id`: filtered on the full primary key. -/
def get_by_id (db : MessageStore) (key : String × String) (msg_id : String) :
    Option DbMessage :=
  db.find? (fun m =>
    m.chat_uid == key.1 && m.chat_receiver == key.2 && m.msg_id == msg_id)

/-- Database-level failure of an insert. -/
inductive DbError where
  | uniqueViolation
  deriving DecidableEq

/-- `MessageQuery::insert`: a plain `INSERT INTO message VALUES ...` with no
conflict clause.  Against the declared primary key
`(chat_uid, chat_receiver, msg_id)` a row with a duplicate key is rejected
with a uniqueness error; otherwise the row is appended. -/
def insert (db : MessageStore) (m : DbMessage) : Except DbError MessageStore :=
  if db.any (fun x => decide (x.key = m.key)) then .error .uniqueViolation
  else .ok (db ++ [m])

end MessageQuery

/-- No two rows of the store share a primary key. -/
def NoDupKeys (db : MessageStore) : Prop :=
  db.Pairwise (fun a b => a.key ≠ b.key)

/- ---------------------------------------------------------------------- -/
/- Portal and room materialization (src/bridge/portal.rs)                  -/
/- ---------------------------------------------------------------------- -/

/-- A row of the `portal` table (struct `Portal`). -/
structure DbPortal where
  uid : String
  receiver : String
  mxid : Option String
  name : String
  name_set : Bool
  topic : String
  topic_set : Bool
  avatar : String
  avatar_url : Option String
  avatar_set : Bool
  encrypted : Bool
  last_sync : Int
  first_event_id : Option String
  next_batch_id : Option String
  deriving DecidableEq

/-- `Event.chat.type` of the agent wire protocol (`ChatType`): `private`
(named `privateChat` here because `private` is a Lean keyword) or `group`. -/
inductive ChatType where
  | privateChat
  | groupChat
  deriving DecidableEq

/-- The `is_direct` argument every inbound handler in wechat_bridge.rs
passes to `get_matrix_room`:
`event.chat.chat_type == crate::wechat::ChatType::Private`. -/
def inboundIsDirect (t : ChatType) : Bool :=
  t == ChatType.privateChat

/-- `CreateRoomRequest` as built by `BridgePortal::create_matrix_room`
(the bridge-info initial-state event is summarized by the flag recording
whether an `m.room.encryption` event was added). -/
structure CreateRoomRequest where
  visibility : Option String
  room_alias_name : Option String
  name : Option String
  topic : Option String
  invite : List String
  room_version : Option String
  preset : Option String
  is_direct : Bool
  power_level_users : List (String × Int)
  initial_state_has_encryption : Bool
  deriving DecidableEq

/-- `BridgePortal::create_matrix_room`.  `new_room_id` is the oracle for the
room id the homeserver returns from `client.create_room`.  The result is
the returned room id, the updated portal row, and the list of `createRoom`
calls issued. -/
def create_matrix_room (portal : DbPortal) (user_mxid puppet_mxid : String)
    (name _avatar_url : Option String) (is_direct encrypted : Bool)
    (new_room_id : String) : String × DbPortal × List CreateRoomRequest :=
  let room_name := name.getD portal.name
  let preset := if is_direct then "private_chat" else "public_chat"
  let req : CreateRoomRequest :=
    { visibility := some "private"
      room_alias_name := none
      name := some room_name
      topic := none
      invite := [user_mxid, puppet_mxid]
      room_version := none
      preset := some preset
      is_direct := is_direct
      power_level_users := [(user_mxid, 100), (puppet_mxid, 100)]
      initial_state_has_encryption := encrypted }
  let portal2 : DbPortal :=
    { portal with
        mxid := some new_room_id
        encrypted := encrypted
        name := match name with | some n => n | none => portal.name }
  (new_room_id, portal2, [req])

/-- `BridgePortal::get_matrix_room`: reuse the existing room id when the
portal has one, otherwise materialize a room. -/
def get_matrix_room (portal : DbPortal) (user_mxid puppet_mxid : String)
    (name avatar_url : Option String) (is_direct encrypted : Bool)
    (new_room_id : String) : String × DbPortal × List CreateRoomRequest :=
  match portal.mxid with
  | some m => (m, portal, [])
  | none =>
      create_matrix_room portal user_mxid puppet_mxid name avatar_url
        is_direct encrypted new_room_id

/- ---------------------------------------------------------------------- -/
/- Puppet profile sync (src/bridge/puppet.rs, src/config/bridge.rs)        -/
/- ---------------------------------------------------------------------- -/

/-- `NAME_QUALITY_NAME` from config/bridge.rs. -/
def NAME_QUALITY_NAME : Int := 2

/-- `NAME_QUALITY_UIN` from config/bridge.rs. -/
def NAME_QUALITY_UIN : Int := 1

/-- A row of the `puppet` table (struct `Puppet`). -/
structure DbPuppet where
  uin : String
  avatar : Option String
  avatar_url : Option String
  avatar_set : Bool
  displayname : Option String
  name_quality : Int
  name_set : Bool
  last_sync : Int
  custom_mxid : Option String
  access_token : Option String
  next_batch : Option String
  enable_presence : Bool
  deriving DecidableEq

/-- `Puppet::new`. -/
def DbPuppet.new (uin : String) : DbPuppet :=
  { uin := uin, avatar := none, avatar_url := none, avatar_set := false
    displayname := none, name_quality := 0, name_set := false, last_sync := 0
    custom_mxid := none, access_token := none, next_batch := none
    enable_presence := true }

/-- `BridgePuppet::is_custom_puppet`: double-puppeted iff both the custom
account id and the access credential are present. -/
def DbPuppet.is_custom_puppet (p : DbPuppet) : Bool :=
  p.custom_mxid.isSome && p.access_token.isSome

/-- `BridgePuppet::sync` (the profile-sync state update).  The two Matrix
profile calls are replaced by outcome oracles `set_name_ok` and
`set_avatar_ok`; a failed call only logs and leaves the row unchanged.
Every incoming name is stored with quality `NAME_QUALITY_NAME`, and a
non-forced call updates the name only when
`!name_set || name_quality < NAME_QUALITY_NAME`. -/
def DbPuppet.sync (p : DbPuppet) (name : Option String)
    (avatar_url : Option String) (force : Bool)
    (set_name_ok set_avatar_ok : Bool) : DbPuppet :=
  let p1 :=
    match name with
    | none => p
    | some n =>
        if force || !p.name_set || p.name_quality < NAME_QUALITY_NAME then
          if set_name_ok then
            { p with displayname := some n, name_quality := NAME_QUALITY_NAME,
                     name_set := true }
          else p
        else p
  match avatar_url with
  | none => p1
  | some u =>
      if force || !p1.avatar_set then
        if set_avatar_ok then
          { p1 with avatar_url := some u, avatar_set := true }
        else p1
      else p1

/- ---------------------------------------------------------------------- -/
/- Outbound pipeline (src/matrix/event_handler.rs)                         -/
/- ---------------------------------------------------------------------- -/

/-- A Matrix room event, projected to the fields the handlers consult:
`msgtype` and `body` carry the already-defaulted content fields
(`unwrap_or("m.text")` / `unwrap_or("")`), `url` the media reference, and
`in_reply_to` the value of `content["m.relates_to"]["m.in_reply_to"]["event_id"]`. -/
structure RoomEvent where
  event_id : Option String
  room_id : Option String
  sender : Option String
  origin_server_ts : Option Int
  msgtype : String
  body : String
  url : Option String
  in_reply_to : Option String
  deriving DecidableEq

/-- `MatrixEventHandler::get_reply_target`: resolve a reply reference
through the correlation store; any miss yields `None`, never an error. -/
def get_reply_target (db : MessageStore) (e : RoomEvent) : Option String :=
  match e.in_reply_to with
  | none => none
  | some ref =>
      match e.room_id with
      | none => none
      | some _ =>
          match MessageQuery.get_by_mxid db ref with
          | some msg => some msg.msg_id
          | none => none

/-- One `send_text_message` RPC to the WeChat agent. -/
structure TextSendCall where
  chat_id : String
  text : String
  reply_to : Option String
  deriving DecidableEq

/-- One media send RPC (`send_image_message` and friends); the opaque media
bytes are not modelled. -/
structure MediaSendCall where
  chat_id : String
  reply_to : Option String
  deriving DecidableEq

/-- `MatrixEventHandler::handle_text_message` (also the notice/emote path).
`send_result` is the oracle for `client.send_text_message`, which returns
the WeChat message id on success.  The function returns the correlation
store (which this handler never writes) and the send calls issued; the
`Except` layer shows the handler itself never fails — a send failure is
only logged. -/
def handle_text_message (db : MessageStore) (has_client : Bool)
    (portal_uid : String) (e : RoomEvent) (body msgtype : String)
    (send_result : Except String String) :
    Except MessageQuery.DbError (MessageStore × List TextSendCall) :=
  if !has_client then .ok (db, [])
  else
    let text := if msgtype == "m.emote" then "/me " ++ body else body
    let reply_to := get_reply_target db e
    let call : TextSendCall := ⟨portal_uid, text, reply_to⟩
    match send_result with
    | .error _ => .ok (db, [call])
    | .ok _msg_id => .ok (db, [call])

/-- `MatrixEventHandler::handle_image_message`.  `download_result` is the
oracle for `matrix_client.download_media`, `send_result` for
`client.send_image_message` (returning the WeChat message id).  On a
successful send with both ids present, the handler writes a correlation
row via `insert_message` (whose failure propagates through `?`). -/
def handle_image_message (db : MessageStore) (has_client : Bool)
    (portal_uid portal_receiver : String) (e : RoomEvent)
    (download_result : Except String Unit)
    (send_result : Except String String) :
    Except MessageQuery.DbError (MessageStore × List MediaSendCall) :=
  if !has_client then .ok (db, [])
  else
    match e.url with
    | none => .ok (db, [])
    | some _ =>
        match download_result with
        | .error _ => .ok (db, [])
        | .ok _ =>
            let reply_to := get_reply_target db e
            let call : MediaSendCall := ⟨portal_uid, reply_to⟩
            match send_result with
            | .error _ => .ok (db, [call])
            | .ok msg_id =>
                match e.event_id, e.room_id with
                | some event_id, some _ =>
                    let msg : DbMessage :=
                      { chat_uid := portal_uid
                        chat_receiver := portal_receiver
                        msg_id := msg_id
                        mxid := event_id
                        sender := e.sender.getD ""
                        timestamp := e.origin_server_ts.getD 0
                        sent := true
                        error := none
                        msg_type := "m.image" }
                    match MessageQuery.insert db msg with
                    | .error err => .error err
                    | .ok db2 => .ok (db2, [call])
                | _, _ => .ok (db, [call])

/- ---------------------------------------------------------------------- -/
/- Inbound revoke handling (src/bridge/wechat_bridge.rs)                   -/
/- ---------------------------------------------------------------------- -/

/-- An inbound WeChat `Event`, projected to the fields the revoke handler
consults; `data_msg_id` is `data.get("msg_id").and_then(as_str)` of the
optional `data` object. -/
structure WxRevokeEvent where
  id : String
  timestamp : Int
  from_id : String
  chat_id : String
  chat_type : ChatType
  data : Option (Option String)
  deriving DecidableEq

/-- One `client.redact(room_id, event_id, reason)` call. -/
structure RedactCall where
  room_id : String
  event_id : String
  reason : Option String
  deriving DecidableEq

/-- `WechatBridge::handle_revoke_event`: look up the original message by
WeChat message id (`data.msg_id`, falling back to the event id) and issue a
redaction; a correlation miss, or an event without `data`, is a no-op.  The
redaction call is built exactly as in the source:
`client.redact(&msg.chat_uid, &msg.mxid, Some("Message revoked"))`. -/
def handle_revoke_event (db : MessageStore) (e : WxRevokeEvent) :
    List RedactCall :=
  match e.data with
  | none => []
  | some data_msg_id =>
      let msg_id := data_msg_id.getD e.id
      match MessageQuery.get_by_msg_id db msg_id with
      | none => []
      | some msg => [⟨msg.chat_uid, msg.mxid, some "Message revoked"⟩]

/- ====================================================================== -/
/- Theorems                                                                -/
/- ====================================================================== -/

section BackoffCounting

variable {σ : Type} (step : ℕ → σ → Option ℚ × σ) (count maxR : σ → ℕ)

/-- Generic counting argument shared by the four backoff variants: if a call
increments the retry counter exactly when it has not reached the limit,
then after `n` calls from a fresh state the counter is the minimum of `n`
and the limit. -/
theorem countAfter
    (Hcount : ∀ n s, count ((step n s).2) =
      if maxR s ≤ count s then count s else count s + 1)
    (Hmax : ∀ n s, maxR ((step n s).2) = maxR s)
    (s : σ) (h0 : count s = 0) (n : ℕ) :
    count (stateAfter step s n) = min n (maxR s) ∧
      maxR (stateAfter step s n) = maxR s := by
  induction n with
  | zero => simp [stateAfter, h0]
  | succ n ih =>
    obtain ⟨ihc, ihm⟩ := ih
    constructor
    · rw [stateAfter, Hcount, ihm, ihc]
      rcases le_or_lt (maxR s) n with h | h
      · rw [if_pos] <;> omega
      · rw [if_neg] <;> omega
    · rw [stateAfter, Hmax, ihm]

/-- Generic form of "`next_delay` yields `Some` for exactly the first
`max_retries` calls": the `n`-th call (0-indexed) from a fresh state
succeeds iff `n` is below the limit. -/
theorem nthCall_isSome
    (Hnone : ∀ n s, (step n s).1 = none ↔ maxR s ≤ count s)
    (Hcount : ∀ n s, count ((step n s).2) =
      if maxR s ≤ count s then count s else count s + 1)
    (Hmax : ∀ n s, maxR ((step n s).2) = maxR s)
    (s : σ) (h0 : count s = 0) (n : ℕ) :
    (nthCall step s n).isSome ↔ n < maxR s := by
  obtain ⟨hc, hm⟩ := countAfter step count maxR Hcount Hmax s h0 n
  have h := Hnone n (stateAfter step s n)
  rw [hc, hm] at h
  rcases hopt : (step n (stateAfter step s n)).1 with _ | d
  · simp only [nthCall, hopt, Option.isSome_none, Bool.false_eq_true, false_iff]
    have := h.mp hopt
    omega
  · simp only [nthCall, hopt, Option.isSome_some, true_iff]
    have hne : ¬ (maxR s ≤ min n (maxR s)) := by
      intro hle
      have hnone := h.mpr hle
      simp [hopt] at hnone
    omega

end BackoffCounting

theorem expStep_spec (jit : ℕ → ℚ) :
    (∀ n (s : ExponentialBackoff),
        (expStep jit n s).1 = none ↔ s.config.max_retries ≤ s.retry_count) ∧
    (∀ n (s : ExponentialBackoff), (expStep jit n s).2.retry_count =
        if s.config.max_retries ≤ s.retry_count then s.retry_count
        else s.retry_count + 1) ∧
    (∀ n (s : ExponentialBackoff),
        (expStep jit n s).2.config.max_retries = s.config.max_retries) := by
  refine ⟨fun n s => ?_, fun n s => ?_, fun n s => ?_⟩ <;>
    simp only [expStep, ExponentialBackoff.next_delay] <;> split <;> simp_all

theorem linStep_spec :
    (∀ n (s : LinearBackoff),
        (linStep n s).1 = none ↔ s.config.max_retries ≤ s.retry_count) ∧
    (∀ n (s : LinearBackoff), (linStep n s).2.retry_count =
        if s.config.max_retries ≤ s.retry_count then s.retry_count
        else s.retry_count + 1) ∧
    (∀ n (s : LinearBackoff),
        (linStep n s).2.config.max_retries = s.config.max_retries) := by
  refine ⟨fun n s => ?_, fun n s => ?_, fun n s => ?_⟩ <;>
    simp only [linStep, LinearBackoff.next_delay] <;> split <;> simp_all

theorem fixStep_spec :
    (∀ n (s : FixedBackoff),
        (fixStep n s).1 = none ↔ s.config.max_retries ≤ s.retry_count) ∧
    (∀ n (s : FixedBackoff), (fixStep n s).2.retry_count =
        if s.config.max_retries ≤ s.retry_count then s.retry_count
        else s.retry_count + 1) ∧
    (∀ n (s : FixedBackoff),
        (fixStep n s).2.config.max_retries = s.config.max_retries) := by
  refine ⟨fun n s => ?_, fun n s => ?_, fun n s => ?_⟩ <;>
    simp only [fixStep, FixedBackoff.next_delay] <;> split <;> simp_all

theorem immStep_spec :
    (∀ n (s : ImmediateBackoff),
        (immStep n s).1 = none ↔ s.config.max_retries ≤ s.retry_count) ∧
    (∀ n (s : ImmediateBackoff), (immStep n s).2.retry_count =
        if s.config.max_retries ≤ s.retry_count then s.retry_count
        else s.retry_count + 1) ∧
    (∀ n (s : ImmediateBackoff),
        (immStep n s).2.config.max_retries = s.config.max_retries) := by
  refine ⟨fun n s => ?_, fun n s => ?_, fun n s => ?_⟩ <;>
    simp only [immStep, ImmediateBackoff.next_delay] <;> split <;> simp_all

theorem exp_nth_call (cfg : BackoffConfig) (jit : ℕ → ℚ) (n : ℕ) :
    (nthCall (expStep jit) (ExponentialBackoff.new cfg) n).isSome ↔
      n < cfg.max_retries :=
  nthCall_isSome (expStep jit) (fun s => s.retry_count)
    (fun s => s.config.max_retries) (expStep_spec jit).1 (expStep_spec jit).2.1
    (expStep_spec jit).2.2 (ExponentialBackoff.new cfg) rfl n

theorem lin_nth_call (cfg : BackoffConfig) (n : ℕ) :
    (nthCall linStep (LinearBackoff.new cfg) n).isSome ↔ n < cfg.max_retries :=
  nthCall_isSome linStep (fun s => s.retry_count)
    (fun s => s.config.max_retries) linStep_spec.1 linStep_spec.2.1
    linStep_spec.2.2 (LinearBackoff.new cfg) rfl n

theorem fix_nth_call (cfg : BackoffConfig) (n : ℕ) :
    (nthCall fixStep (FixedBackoff.new cfg) n).isSome ↔ n < cfg.max_retries :=
  nthCall_isSome fixStep (fun s => s.retry_count)
    (fun s => s.config.max_retries) fixStep_spec.1 fixStep_spec.2.1
    fixStep_spec.2.2 (FixedBackoff.new cfg) rfl n

theorem imm_nth_call (cfg : BackoffConfig) (n : ℕ) :
    (nthCall immStep (ImmediateBackoff.new cfg) n).isSome ↔ n < cfg.max_retries :=
  nthCall_isSome immStep (fun s => s.retry_count)
    (fun s => s.config.max_retries) immStep_spec.1 immStep_spec.2.1
    immStep_spec.2.2 (ImmediateBackoff.new cfg) rfl n

/-- C10 (counterexample): with the default-style configuration
(`initial_delay` = 100ms = 1/10 s), the first `next_delay()` of a freshly
constructed `ImmediateBackoff` returns a zero delay, not `initial_delay`,
refuting the claim that for every backoff variant the first delay after
construction equals `initial_delay`. -/
theorem C10_immediate_first_delay_counterexample :
    ((ImmediateBackoff.new ⟨1/10, 60, 2, 10, true⟩).next_delay).1 ≠
        some ((1 : ℚ)/10) ∧
      ((ImmediateBackoff.new ⟨1/10, 60, 2, 10, true⟩).next_delay).1 =
        some 0 := by
  constructor
  · intro h
    rw [show ((ImmediateBackoff.new ⟨1/10, 60, 2, 10, true⟩).next_delay).1 =
        some 0 from rfl] at h
    have : (0 : ℚ) = 1/10 := by injection h
    norm_num at this
  · rfl

/-- C10 (amended): for every `BackoffConfig` and every backoff variant,
starting from construction (or a reset, since `reset` restores the
freshly-constructed state), `next_delay()` returns `Some` for exactly the
first `max_retries` calls and `None` thereafter; `is_exhausted()` is true
exactly when `retry_count` has reached `max_retries`, i.e. exactly when the
next `next_delay()` call would return `None`; and the first delay after
construction or reset equals `initial_delay` for the Exponential, Linear
and Fixed variants, while `ImmediateBackoff` returns a zero first delay. -/
theorem C10_backoff_schedule (cfg : BackoffConfig) (jit : ℕ → ℚ) (n : ℕ)
    (h0 : 0 < cfg.max_retries) :
    ((nthCall (expStep jit) (ExponentialBackoff.new cfg) n).isSome ↔
        n < cfg.max_retries) ∧
    ((nthCall linStep (LinearBackoff.new cfg) n).isSome ↔ n < cfg.max_retries) ∧
    ((nthCall fixStep (FixedBackoff.new cfg) n).isSome ↔ n < cfg.max_retries) ∧
    ((nthCall immStep (ImmediateBackoff.new cfg) n).isSome ↔ n < cfg.max_retries) ∧
    (((ExponentialBackoff.new cfg).next_delay (jit 0)).1 = some cfg.initial_delay) ∧
    (((LinearBackoff.new cfg).next_delay).1 = some cfg.initial_delay) ∧
    (((FixedBackoff.new cfg).next_delay).1 = some cfg.initial_delay) ∧
    (((ImmediateBackoff.new cfg).next_delay).1 = some 0) ∧
    (∀ b : ExponentialBackoff, b.reset = ExponentialBackoff.new b.config) ∧
    (∀ b : LinearBackoff, b.reset = LinearBackoff.new b.config) ∧
    (∀ b : FixedBackoff, b.reset = FixedBackoff.new b.config) ∧
    (∀ b : ImmediateBackoff, b.reset = ImmediateBackoff.new b.config) ∧
    (∀ b : ExponentialBackoff,
        (b.is_exhausted = true ↔ b.config.max_retries ≤ b.retry_count) ∧
        (b.is_exhausted = true ↔ ∀ r, (b.next_delay r).1 = none)) ∧
    (∀ b : LinearBackoff,
        (b.is_exhausted = true ↔ b.config.max_retries ≤ b.retry_count) ∧
        (b.is_exhausted = true ↔ (b.next_delay).1 = none)) ∧
    (∀ b : FixedBackoff,
        (b.is_exhausted = true ↔ b.config.max_retries ≤ b.retry_count) ∧
        (b.is_exhausted = true ↔ (b.next_delay).1 = none)) ∧
    (∀ b : ImmediateBackoff,
        (b.is_exhausted = true ↔ b.config.max_retries ≤ b.retry_count) ∧
        (b.is_exhausted = true ↔ (b.next_delay).1 = none)) := by
  refine ⟨exp_nth_call cfg jit n, lin_nth_call cfg n, fix_nth_call cfg n,
    imm_nth_call cfg n, ?_, ?_, ?_, ?_, fun b => rfl, fun b => rfl,
    fun b => rfl, fun b => rfl, fun b => ⟨?_, ?_⟩, fun b => ⟨?_, ?_⟩,
    fun b => ⟨?_, ?_⟩, fun b => ⟨?_, ?_⟩⟩
  · simp only [ExponentialBackoff.new, ExponentialBackoff.next_delay]
    rw [if_neg (by omega)]
  · simp only [LinearBackoff.new, LinearBackoff.next_delay]
    rw [if_neg (by omega)]
  · simp only [FixedBackoff.new, FixedBackoff.next_delay]
    rw [if_neg (by omega)]
  · simp only [ImmediateBackoff.new, ImmediateBackoff.next_delay]
    rw [if_neg (by omega)]
  · simp [ExponentialBackoff.is_exhausted]
  · constructor
    · intro h r
      simp only [ExponentialBackoff.is_exhausted, decide_eq_true_eq] at h
      simp [ExponentialBackoff.next_delay, h]
    · intro h
      have := h 0
      simp only [ExponentialBackoff.next_delay] at this
      by_cases hc : b.config.max_retries ≤ b.retry_count
      · simpa [ExponentialBackoff.is_exhausted]
      · rw [if_neg hc] at this
        simp at this
  · simp [LinearBackoff.is_exhausted]
  · constructor
    · intro h
      simp only [LinearBackoff.is_exhausted, decide_eq_true_eq] at h
      simp [LinearBackoff.next_delay, h]
    · intro h
      simp only [LinearBackoff.next_delay] at h
      by_cases hc : b.config.max_retries ≤ b.retry_count
      · simpa [LinearBackoff.is_exhausted]
      · rw [if_neg hc] at h
        simp at h
  · simp [FixedBackoff.is_exhausted]
  · constructor
    · intro h
      simp only [FixedBackoff.is_exhausted, decide_eq_true_eq] at h
      simp [FixedBackoff.next_delay, h]
    · intro h
      simp only [FixedBackoff.next_delay] at h
      by_cases hc : b.config.max_retries ≤ b.retry_count
      · simpa [FixedBackoff.is_exhausted]
      · rw [if_neg hc] at h
        simp at h
  · simp [ImmediateBackoff.is_exhausted]
  · constructor
    · intro h
      simp only [ImmediateBackoff.is_exhausted, decide_eq_true_eq] at h
      simp [ImmediateBackoff.next_delay, h]
    · intro h
      simp only [ImmediateBackoff.next_delay] at h
      by_cases hc : b.config.max_retries ≤ b.retry_count
      · simpa [ImmediateBackoff.is_exhausted]
      · rw [if_neg hc] at h
        simp at h

/-- C10 witness: the amended schedule instantiated at a concrete
configuration with `max_retries = 3`, checked at call index 1. -/
theorem C10_backoff_schedule_witness :
    (0 < (3 : ℕ)) ∧
      ((nthCall linStep (LinearBackoff.new ⟨1, 60, 2, 3, false⟩) 1).isSome ↔
        1 < 3) :=
  ⟨by decide,
    (C10_backoff_schedule ⟨1, 60, 2, 3, false⟩ (fun _ => 0) 1 (by decide)).2.1⟩

/-- C2: `WechatService::request` with no registered agent connection fails
with the no-connection error before ever reaching the 30-second timeout
await, and on both the no-connection path and the timeout path it removes
its own waiter, so the pending-request map no longer contains the
allocated correlation id (`request_id + 1`) when the call returns. -/
theorem C2_request_failure_cleanup (st : ServiceState) (outcome : AwaitOutcome) :
    (st.connections = [] →
      (request st outcome).result = .error .noConnection ∧
      (request st outcome).reachedTimeoutWait = false ∧
      (st.request_id + 1) ∉ (request st outcome).finalState.pending) ∧
    (st.connections ≠ [] → outcome = .timedOut →
      (request st outcome).result = .error .timeout ∧
      (st.request_id + 1) ∉ (request st outcome).finalState.pending) := by
  constructor
  · intro hconn
    simp [request, get_connection, hconn, removePending, List.mem_filter]
  · intro hconn hout
    subst hout
    rcases hc : st.connections with _ | ⟨p, t⟩
    · exact absurd hc hconn
    · simp [request, get_connection, hc, removePending, List.mem_filter]

/-- C2 witness: the no-connection path at an empty service state and the
timeout path at a service state with one registered connection. -/
theorem C2_request_failure_cleanup_witness :
    ((request ⟨[], [], 0⟩ .timedOut).result = .error .noConnection ∧
      (request ⟨[], [], 0⟩ .timedOut).reachedTimeoutWait = false ∧
      (1 : ℤ) ∉ (request ⟨[], [], 0⟩ .timedOut).finalState.pending) ∧
    ((request ⟨[("a", ⟨"a"⟩)], [], 0⟩ .timedOut).result = .error .timeout ∧
      (1 : ℤ) ∉ (request ⟨[("a", ⟨"a"⟩)], [], 0⟩ .timedOut).finalState.pending) :=
  ⟨(C2_request_failure_cleanup ⟨[], [], 0⟩ .timedOut).1 rfl,
    ((C2_request_failure_cleanup ⟨[("a", ⟨"a"⟩)], [], 0⟩ .timedOut).2
      (by simp) rfl).imp id id⟩

/-- C3 (counterexample): the connection registry is a `HashMap` keyed by
remote address, so two agents connecting from distinct addresses are both
registered at once — the state reached by two `handle_socket` connects
holds two connections, refuting "at most one active agent connection at
any time" and "a new connection replaces any previously registered
connection". -/
theorem C3_single_connection_counterexample :
    ¬ ((handle_socket_connect
          (handle_socket_connect ⟨[], [], 0⟩ "1.2.3.4:1000")
          "5.6.7.8:2000").connections.length ≤ 1) := by
  decide

/-- Nested filter helper: rows whose key differs from `addr` never match a
subsequent filter for `addr`. -/
theorem filter_ne_then_eq (addr : String) (m : List (String × Connection)) :
    (m.filter (fun p => p.1 ≠ addr)).filter (fun p => p.1 == addr) = [] := by
  induction m with
  | nil => rfl
  | cons a t ih =>
    by_cases h : a.1 = addr
    · simpa [h] using ih
    · simpa [h] using ih

/-- Filtering away `addr` twice is the same as doing it once. -/
theorem filter_ne_idem (addr : String) (m : List (String × Connection)) :
    (m.filter (fun p => p.1 ≠ addr)).filter (fun p => p.1 ≠ addr) =
      m.filter (fun p => p.1 ≠ addr) := by
  induction m with
  | nil => rfl
  | cons a t ih =>
    by_cases h : a.1 = addr
    · simpa [h] using ih
    · simpa [h] using ih

/-- C3 (amended): connection registration is keyed by remote address: after
a connect from `addr` the registry holds exactly one connection for
`addr` (a reconnect from the same address replaces the old entry), while
connections from other addresses are untouched — so connections from
distinct addresses coexist; `get_connection` returns an arbitrary
registered connection (some element of the registry), not necessarily the
most recent one. -/
theorem C3_connection_registry_keyed_by_addr (st : ServiceState) (addr : String) :
    ((handle_socket_connect st addr).connections.filter
        (fun p => p.1 == addr) = [(addr, ⟨addr⟩)]) ∧
    ((handle_socket_connect st addr).connections.filter
        (fun p => p.1 ≠ addr) = st.connections.filter (fun p => p.1 ≠ addr)) ∧
    (∀ c, get_connection st = some c → ∃ a, (a, c) ∈ st.connections) := by
  refine ⟨?_, ?_, ?_⟩
  · simp [handle_socket_connect, assocInsert, filter_ne_then_eq]
  · simp [handle_socket_connect, assocInsert, filter_ne_idem]
  · intro c hc
    rcases hl : st.connections with _ | ⟨p, t⟩
    · simp [get_connection, hl] at hc
    · simp [get_connection, hl] at hc
      exact ⟨p.1, by simp [hl, ← hc]⟩

/-- C3 witness: the amended registry behaviour at a state already holding a
connection from a different address. -/
theorem C3_connection_registry_keyed_by_addr_witness :
    ((handle_socket_connect ⟨[("b", ⟨"b"⟩)], [], 0⟩ "a").connections.filter
        (fun p => p.1 == "a") = [("a", ⟨"a"⟩)]) ∧
    ((handle_socket_connect ⟨[("b", ⟨"b"⟩)], [], 0⟩ "a").connections.filter
        (fun p => p.1 ≠ "a") =
      ([("b", ⟨"b"⟩)] : List (String × Connection)).filter (fun p => p.1 ≠ "a")) :=
  ⟨(C3_connection_registry_keyed_by_addr ⟨[("b", ⟨"b"⟩)], [], 0⟩ "a").1,
    (C3_connection_registry_keyed_by_addr ⟨[("b", ⟨"b"⟩)], [], 0⟩ "a").2.1⟩

/-- C4 (counterexample): `MessageQuery::insert` is a plain `INSERT`; a
second correlation record for the same
`(conversationKey, externalMessageId)` is rejected with a uniqueness
error — the stored chat event id is NOT overwritten, the store still maps
the key to the first chat event id. -/
theorem C4_overwrite_counterexample :
    MessageQuery.insert
        [⟨"wxchat1", "@alice:hs", "WXMSG1", "$evt1", "@g:hs", 100, true, none, ""⟩]
        ⟨"wxchat1", "@alice:hs", "WXMSG1", "$evt2", "@g:hs", 200, true, none, ""⟩ =
      .error .uniqueViolation ∧
    (MessageQuery.get_by_id
        [⟨"wxchat1", "@alice:hs", "WXMSG1", "$evt1", "@g:hs", 100, true, none, ""⟩]
        ("wxchat1", "@alice:hs") "WXMSG1").map (fun m => m.mxid) = some "$evt1" ∧
    ("$evt1" : String) ≠ "$evt2" := by
  refine ⟨rfl, rfl, by decide⟩

/-- C4 (amended): a second `recordSent` for a key already present fails
with a uniqueness error instead of overwriting; a successful insert
appends the row while preserving key-uniqueness; and a key-unique store
never holds two correlation records with different chat event ids for the
same `(conversationKey, externalMessageId)`. -/
theorem C4_insert_never_duplicates (db : MessageStore) (m : DbMessage)
    (hnd : NoDupKeys db) :
    ((∃ x ∈ db, x.key = m.key) →
        MessageQuery.insert db m = .error .uniqueViolation) ∧
    (∀ db2, MessageQuery.insert db m = .ok db2 →
        db2 = db ++ [m] ∧ NoDupKeys db2) ∧
    (∀ x ∈ db, ∀ y ∈ db, x.key = y.key → x.mxid = y.mxid) := by
  refine ⟨?_, ?_, ?_⟩
  · intro ⟨x, hx, hkey⟩
    have hany : db.any (fun x => decide (x.key = m.key)) = true :=
      List.any_eq_true.mpr ⟨x, hx, by simp [hkey]⟩
    simp [MessageQuery.insert, hany]
  · intro db2 hok
    by_cases hany : db.any (fun x => decide (x.key = m.key)) = true
    · simp [MessageQuery.insert, hany] at hok
    · simp only [MessageQuery.insert, hany] at hok
      rw [if_neg (by simp [hany])] at hok
      injection hok with hdb2
      subst hdb2
      refine ⟨rfl, ?_⟩
      rw [NoDupKeys, List.pairwise_append]
      refine ⟨hnd, List.pairwise_singleton _ _, ?_⟩
      intro x hx y hy
      simp only [List.mem_singleton] at hy
      subst hy
      intro hkey
      exact absurd (List.any_eq_true.mpr ⟨x, hx, by simp [hkey]⟩) hany
  · intro x hx y hy hkey
    by_contra hne
    have hxy : x ≠ y := fun h => hne (h ▸ rfl)
    exact (hnd.forall (fun a b hab => fun h => hab h.symm) hx hy hxy) hkey

/-- C4 witness: the amended behaviour at a one-row store and a fresh row —
the successful insert appends the row and the resulting two-row store is
still key-unique. -/
theorem C4_insert_never_duplicates_witness :
    ([⟨"wxchat1", "@alice:hs", "WXMSG1", "$evt1", "@g:hs", 100, true, none, ""⟩,
      ⟨"wxchat1", "@alice:hs", "WXMSG2", "$evt2", "@g:hs", 200, true, none, ""⟩]
          : MessageStore) =
      [⟨"wxchat1", "@alice:hs", "WXMSG1", "$evt1", "@g:hs", 100, true, none, ""⟩]
        ++ [⟨"wxchat1", "@alice:hs", "WXMSG2", "$evt2", "@g:hs", 200, true, none, ""⟩] ∧
    NoDupKeys
      [⟨"wxchat1", "@alice:hs", "WXMSG1", "$evt1", "@g:hs", 100, true, none, ""⟩,
       ⟨"wxchat1", "@alice:hs", "WXMSG2", "$evt2", "@g:hs", 200, true, none, ""⟩] :=
  (C4_insert_never_duplicates
      [⟨"wxchat1", "@alice:hs", "WXMSG1", "$evt1", "@g:hs", 100, true, none, ""⟩]
      ⟨"wxchat1", "@alice:hs", "WXMSG2", "$evt2", "@g:hs", 200, true, none, ""⟩
      (List.pairwise_singleton _ _)).2.1
    [⟨"wxchat1", "@alice:hs", "WXMSG1", "$evt1", "@g:hs", 100, true, none, ""⟩,
     ⟨"wxchat1", "@alice:hs", "WXMSG2", "$evt2", "@g:hs", 200, true, none, ""⟩]
    (by rfl)

/-- C5: round-trip through the correlation store — a record written by
`recordSent` with a chat event id and an external message id that are new
to the store is found again both ways: `get_by_mxid` (reply-target
resolution) maps its chat event id to its external message id, and
`get_by_msg_id` (redaction-target resolution) maps its external message id
back to its chat event id. -/
theorem C5_correlation_roundtrip (db : MessageStore) (m : DbMessage)
    (db2 : MessageStore)
    (hmx : MessageQuery.get_by_mxid db m.mxid = none)
    (hmid : MessageQuery.get_by_msg_id db m.msg_id = none)
    (hins : MessageQuery.insert db m = .ok db2) :
    (MessageQuery.get_by_mxid db2 m.mxid).map (fun r => r.msg_id) =
        some m.msg_id ∧
    (MessageQuery.get_by_msg_id db2 m.msg_id).map (fun r => r.mxid) =
        some m.mxid := by
  have hdb2 : db2 = db ++ [m] := by
    by_cases hany : db.any (fun x => decide (x.key = m.key)) = true
    · simp [MessageQuery.insert, hany] at hins
    · simp only [MessageQuery.insert] at hins
      rw [if_neg (by simp [hany])] at hins
      injection hins with h
      exact h.symm
  subst hdb2
  constructor
  · rw [MessageQuery.get_by_mxid, List.find?_append]
    rw [MessageQuery.get_by_mxid] at hmx
    simp [hmx]
  · rw [MessageQuery.get_by_msg_id, List.find?_append]
    rw [MessageQuery.get_by_msg_id] at hmid
    simp [hmid]

/-- C5 witness: the round-trip at an empty store and a concrete record. -/
theorem C5_correlation_roundtrip_witness :
    (MessageQuery.get_by_mxid
        [⟨"wxchat1", "@alice:hs", "WXMSG1", "$evt1", "@g:hs", 100, true, none, ""⟩]
        "$evt1").map (fun r => r.msg_id) = some "WXMSG1" ∧
    (MessageQuery.get_by_msg_id
        [⟨"wxchat1", "@alice:hs", "WXMSG1", "$evt1", "@g:hs", 100, true, none, ""⟩]
        "WXMSG1").map (fun r => r.mxid) = some "$evt1" :=
  C5_correlation_roundtrip []
    ⟨"wxchat1", "@alice:hs", "WXMSG1", "$evt1", "@g:hs", 100, true, none, ""⟩
    [⟨"wxchat1", "@alice:hs", "WXMSG1", "$evt1", "@g:hs", 100, true, none, ""⟩]
    rfl rfl rfl

/-- C6: an inbound event reaching a Portal without a room id triggers
exactly one `createRoom` call, whose preset is `private_chat` when the
event's chat type is private and `public_chat` (non-direct) when it is a
group, and whose invite list is exactly the owning account followed by the
puppet ghost; the returned room id is persisted on the Portal.  A Portal
that already has a room id triggers no `createRoom` call and its existing
room id is returned unchanged. -/
theorem C6_room_materialization :
    (∀ (portal : DbPortal) (user_mxid puppet_mxid : String)
        (name avatar_url : Option String) (t : ChatType) (encrypted : Bool)
        (rid : String), portal.mxid = none →
      (get_matrix_room portal user_mxid puppet_mxid name avatar_url
          (inboundIsDirect t) encrypted rid).2.2.length = 1 ∧
      (∀ req ∈ (get_matrix_room portal user_mxid puppet_mxid name avatar_url
          (inboundIsDirect t) encrypted rid).2.2,
        req.preset = some (if t = ChatType.privateChat then "private_chat"
          else "public_chat") ∧
        req.invite = [user_mxid, puppet_mxid]) ∧
      (get_matrix_room portal user_mxid puppet_mxid name avatar_url
          (inboundIsDirect t) encrypted rid).1 = rid ∧
      (get_matrix_room portal user_mxid puppet_mxid name avatar_url
          (inboundIsDirect t) encrypted rid).2.1.mxid = some rid) ∧
    (∀ (portal : DbPortal) (user_mxid puppet_mxid : String)
        (name avatar_url : Option String) (is_direct encrypted : Bool)
        (rid m : String), portal.mxid = some m →
      get_matrix_room portal user_mxid puppet_mxid name avatar_url
          is_direct encrypted rid = (m, portal, [])) := by
  constructor
  · intro portal user_mxid puppet_mxid name avatar_url t encrypted rid hmx
    cases t <;>
      simp [get_matrix_room, hmx, create_matrix_room, inboundIsDirect]
  · intro portal user_mxid puppet_mxid name avatar_url is_direct encrypted rid m hmx
    simp [get_matrix_room, hmx]

/-- C6 witness: materialization of a fresh private-chat Portal and reuse of
an existing room id. -/
theorem C6_room_materialization_witness :
    ((get_matrix_room
        ⟨"u1", "@alice:hs", none, "", false, "", false, "", none, false, false, 0,
          none, none⟩
        "@bot:hs" "@ghost:hs" (some "Chat") none (inboundIsDirect .privateChat)
        false "!r1:hs").2.2.length = 1 ∧
      (∀ req ∈ (get_matrix_room
          ⟨"u1", "@alice:hs", none, "", false, "", false, "", none, false, false, 0,
            none, none⟩
          "@bot:hs" "@ghost:hs" (some "Chat") none (inboundIsDirect .privateChat)
          false "!r1:hs").2.2,
        req.preset = some (if ChatType.privateChat = ChatType.privateChat
          then "private_chat" else "public_chat") ∧
        req.invite = ["@bot:hs", "@ghost:hs"]) ∧
      (get_matrix_room
        ⟨"u1", "@alice:hs", none, "", false, "", false, "", none, false, false, 0,
          none, none⟩
        "@bot:hs" "@ghost:hs" (some "Chat") none (inboundIsDirect .privateChat)
        false "!r1:hs").1 = "!r1:hs" ∧
      (get_matrix_room
        ⟨"u1", "@alice:hs", none, "", false, "", false, "", none, false, false, 0,
          none, none⟩
        "@bot:hs" "@ghost:hs" (some "Chat") none (inboundIsDirect .privateChat)
        false "!r1:hs").2.1.mxid = some "!r1:hs") ∧
    (get_matrix_room
        ⟨"u1", "@alice:hs", some "!r0:hs", "", false, "", false, "", none, false,
          false, 0, none, none⟩
        "@bot:hs" "@ghost:hs" none none true false "!r1:hs" =
      ("!r0:hs",
        ⟨"u1", "@alice:hs", some "!r0:hs", "", false, "", false, "", none, false,
          false, 0, none, none⟩, [])) :=
  ⟨C6_room_materialization.1
      ⟨"u1", "@alice:hs", none, "", false, "", false, "", none, false, false, 0,
        none, none⟩
      "@bot:hs" "@ghost:hs" (some "Chat") none .privateChat false "!r1:hs" rfl,
    C6_room_materialization.2
      ⟨"u1", "@alice:hs", some "!r0:hs", "", false, "", false, "", none, false,
        false, 0, none, none⟩
      "@bot:hs" "@ghost:hs" none none true false "!r1:hs" "!r0:hs" rfl⟩

/-- C7: evaluation of `handle_revoke_event` at a correlated revoke shows
the bug — the redaction call it issues targets `msg.chat_uid` (the
external conversation id, here `"wxchat1"`) as the room id instead of the
Portal's Matrix room, and uses the reason string `"Message revoked"`
rather than the specified `"message revoked"`; a revoke whose message id
has no correlation record is a no-op. -/
theorem C7_revoke_bug_evaluation :
    handle_revoke_event
        [⟨"wxchat1", "@alice:hs", "WXMSG1", "$evt1", "@g:hs", 100, true, none, ""⟩]
        ⟨"REV1", 200, "u1", "wxchat1", .privateChat, some (some "WXMSG1")⟩ =
      [⟨"wxchat1", "$evt1", some "Message revoked"⟩] ∧
    handle_revoke_event
        [⟨"wxchat1", "@alice:hs", "WXMSG1", "$evt1", "@g:hs", 100, true, none, ""⟩]
        ⟨"REV2", 300, "u1", "wxchat1", .privateChat, some (some "WXMSG_MISSING")⟩ =
      [] ∧
    ("Message revoked" : String) ≠ "message revoked" := by
  refine ⟨rfl, rfl, by decide⟩

/-- C8: puppet displayname quality is monotone under a non-forced sync —
for a puppet whose name is already set, the quality never decreases, and
when the stored quality is at least the quality the sync assigns to an
incoming name (`NAME_QUALITY_NAME`), the displayname, quality and name-set
flag are left unchanged (an equal-or-lower-quality name cannot downgrade). -/
theorem C8_sync_quality_monotone (p : DbPuppet) (name avatar_url : Option String)
    (set_name_ok set_avatar_ok : Bool) (h : p.name_set = true) :
    p.name_quality ≤
        (DbPuppet.sync p name avatar_url false set_name_ok set_avatar_ok).name_quality ∧
    (NAME_QUALITY_NAME ≤ p.name_quality →
      (DbPuppet.sync p name avatar_url false set_name_ok set_avatar_ok).displayname =
          p.displayname ∧
      (DbPuppet.sync p name avatar_url false set_name_ok set_avatar_ok).name_quality =
          p.name_quality ∧
      (DbPuppet.sync p name avatar_url false set_name_ok set_avatar_ok).name_set =
          p.name_set) := by
  cases name <;> cases avatar_url <;>
    simp only [DbPuppet.sync, h, Bool.false_or, Bool.not_true, NAME_QUALITY_NAME] <;>
    (try split_ifs) <;> (try simp_all) <;> omega

/-- C8 witness: a puppet with an id-derived name (quality 1) and a
non-forced sync carrying a real name. -/
theorem C8_sync_quality_monotone_witness :
    (1 : ℤ) ≤ (DbPuppet.sync
        ⟨"u1", none, none, false, some "u1", 1, true, 0, none, none, none, true⟩
        (some "Real Name") none false true true).name_quality ∧
    (NAME_QUALITY_NAME ≤ (1 : ℤ) →
      (DbPuppet.sync
          ⟨"u1", none, none, false, some "u1", 1, true, 0, none, none, none, true⟩
          (some "Real Name") none false true true).displayname = some "u1" ∧
      (DbPuppet.sync
          ⟨"u1", none, none, false, some "u1", 1, true, 0, none, none, none, true⟩
          (some "Real Name") none false true true).name_quality = 1 ∧
      (DbPuppet.sync
          ⟨"u1", none, none, false, some "u1", 1, true, 0, none, none, none, true⟩
          (some "Real Name") none false true true).name_set = true) :=
  C8_sync_quality_monotone
    ⟨"u1", none, none, false, some "u1", 1, true, 0, none, none, none, true⟩
    (some "Real Name") none true true rfl

/-- C9: an outbound text message whose reply reference has no correlation
record degrades gracefully — `get_reply_target` resolves the miss to
`None`, and the handler still succeeds, issuing the send without a reply
reference instead of failing. -/
theorem C9_reply_miss_degrades (db : MessageStore) (e : RoomEvent)
    (portal_uid body msgtype : String) (send_result : Except String String)
    (ref : String) (href : e.in_reply_to = some ref)
    (hmiss : MessageQuery.get_by_mxid db ref = none) :
    get_reply_target db e = none ∧
    handle_text_message db true portal_uid e body msgtype send_result =
      .ok (db, [⟨portal_uid,
        if msgtype == "m.emote" then "/me " ++ body else body, none⟩]) := by
  have hrt : get_reply_target db e = none := by
    rw [get_reply_target, href]
    cases e.room_id <;> simp [hmiss]
  refine ⟨hrt, ?_⟩
  rw [handle_text_message]
  simp only [Bool.not_true, Bool.false_eq_true, if_false, hrt]
  cases send_result <;> rfl

/-- C9 witness: a concrete reply to an unbridged event over an empty
correlation store. -/
theorem C9_reply_miss_degrades_witness :
    get_reply_target []
        ⟨some "$e2", some "!r1:hs", some "@alice:hs", some 1000, "m.text", "hi",
          none, some "$old"⟩ = none ∧
    handle_text_message [] true "wxchat1"
        ⟨some "$e2", some "!r1:hs", some "@alice:hs", some 1000, "m.text", "hi",
          none, some "$old"⟩
        "hi" "m.text" (.ok "WXMSG1") =
      .ok ([], [⟨"wxchat1",
        if "m.text" == "m.emote" then "/me " ++ "hi" else "hi", none⟩]) :=
  C9_reply_miss_degrades []
    ⟨some "$e2", some "!r1:hs", some "@alice:hs", some 1000, "m.text", "hi",
      none, some "$old"⟩
    "wxchat1" "hi" "m.text" (.ok "WXMSG1") "$old" rfl rfl

/-- C1: evaluation of the outbound handlers at successfully forwarded
events shows the asymmetry — `handle_text_message` sends the text, the
agent returns message id `"WXMSG1"`, yet the correlation store is returned
unchanged (no `recordSent`), while `handle_image_message` under the same
conditions appends the correlation row keyed by the portal's conversation
key with the returned external id and the originating event id. -/
theorem C1_text_forward_not_recorded :
    handle_text_message [] true "wxchat1"
        ⟨some "$txt1", some "!room1:hs", some "@alice:hs", some 1000, "m.text",
          "hi", none, none⟩
        "hi" "m.text" (.ok "WXMSG1") =
      .ok ([], [⟨"wxchat1", "hi", none⟩]) ∧
    handle_image_message [] true "wxchat1" "@alice:hs"
        ⟨some "$img1", some "!room1:hs", some "@alice:hs", some 1000, "m.image",
          "img", some "mxc1", none⟩
        (.ok ()) (.ok "WXMSG2") =
      .ok ([⟨"wxchat1", "@alice:hs", "WXMSG2", "$img1", "@alice:hs", 1000, true,
          none, "m.image"⟩],
        [⟨"wxchat1", none⟩]) :=
  ⟨rfl, rfl⟩

end Bridge
